import Mathlib

/-!
Verification of the employee-engagement-pulse scoring/aggregation/insight
pipeline (`app/sentiment.py`, `app/aggregator.py`, `app/insights.py`,
record layout from `app/models.py`).

Embedding conventions:
* Python floats become `ℚ`; calendar dates become day numbers in `ℤ`;
  wall-clock instants (`datetime.now()`) become `ℚ` (days).
* The SQL store becomes explicit lists of records; a SQLAlchemy
  `query(...).filter(...).first()` becomes `List.find?` and committed
  mutation becomes a returned updated list.
* Python `min`/`max` on two floats are `pymin`/`pymax`; `max` on two
  strings (which CPython compares lexicographically by code point) is
  `pyStrMax` over the underlying character lists.
* Two scoring subroutines call external libraries — NLTK VADER for the
  base text score (`analyze_text_sentiment(...)["compound"]`) and the
  `emoji` package inside `calculate_emoji_sentiment` — so those two are
  function parameters (`base_of`, `emoji_of`) wherever the embedded code
  calls them; theorems quantify over them or instantiate them with an
  explicit oracle.  Everything else (keyword table, reaction table,
  clamping, aggregation arithmetic, insight rules) is embedded directly
  from the source.
* Free-text `description` fields and audit-only columns (`id`,
  `confidence`, `data_source`, `actionable`, timestamps not read by any
  code under verification) are omitted from the record types; no claim
  reads them.
-/

namespace Pulse

/-- Python `min(a, b)` on two floats. -/
def pymin (a b : ℚ) : ℚ := if a ≤ b then a else b

/-- Python `max(a, b)` on two floats. -/
def pymax (a b : ℚ) : ℚ := if a ≤ b then b else a

/-- Lexicographic-by-code-point comparison of character lists: CPython's
`<` on `str`. -/
def charListLt : List Char → List Char → Bool
  | [], [] => false
  | [], _ :: _ => true
  | _ :: _, [] => false
  | a :: as, b :: bs =>
    if a.val < b.val then true else if b.val < a.val then false else charListLt as bs

/-- Python `max(a, b)` on two strings: the second argument wins exactly
when it compares strictly greater. -/
def pyStrMax (a b : String) : String := if charListLt a.data b.data then b else a

/-- Whether `pat` is a leading block of `l` (step of the substring scan). -/
def leadsChars : List Char → List Char → Bool
  | [], _ => true
  | _ :: _, [] => false
  | a :: as, b :: bs => a == b && leadsChars as bs

/-- Whether `pat` occurs contiguously in `hay` (Python `pat in hay` on
strings, folded out over the character list). -/
def containsChars (hay pat : List Char) : Bool :=
  match hay with
  | [] => pat.isEmpty
  | _ :: rest => leadsChars pat hay || containsChars rest pat

/-- One row of the `sentiments` table (`app/models.py`, class `Sentiment`).
Note the model stores the numeric components `sentiment_score` (base),
`emoji_boost`, `reaction_boost` and the derived `final_score`, but has NO
column for the keyword modifier computed during scoring. -/
structure Sentiment where
  channel_id : String
  user_id : Option String
  message_ts : String
  text_content : String
  sentiment_score : ℚ
  emoji_boost : ℚ
  reaction_boost : ℚ
  final_score : ℚ
  analysis_date : ℤ
deriving Repr, DecidableEq

/-- `WORK_KEYWORDS` from `app/sentiment.py` lines 102-137. -/
def WORK_KEYWORDS : List (String × ℚ) :=
  [("deploy", 1/10), ("shipped", 2/10), ("release", 1/10), ("launch", 2/10),
   ("success", 3/10), ("completed", 2/10), ("fixed", 2/10), ("resolved", 2/10),
   ("great job", 4/10), ("well done", 3/10), ("awesome", 3/10), ("excellent", 3/10),
   ("bug", -2/10), ("error", -2/10), ("failed", -3/10), ("broken", -3/10),
   ("issue", -1/10), ("problem", -2/10), ("incident", -3/10), ("outage", -4/10),
   ("down", -2/10), ("crash", -3/10), ("urgent", -1/10), ("critical", -2/10),
   ("blocke", -2/10), ("stuck", -2/10), ("frustrated", -4/10), ("stressed", -4/10),
   ("overwhelmed", -5/10), ("burnout", -6/10), ("tired", -2/10)]

/-- `REACTION_SCORES` from `app/sentiment.py` lines 81-99. -/
def REACTION_SCORES : List (String × ℚ) :=
  [("thumbsup", 5/10), ("+1", 5/10), ("thumbsdown", -5/10), ("-1", -5/10),
   ("fire", 4/10), ("heart", 6/10), ("tada", 5/10), ("100", 6/10),
   ("rocket", 4/10), ("star", 4/10), ("eyes", 1/10), ("thinking_face", 0),
   ("x", -3/10), ("warning", -2/10), ("bug", -2/10), ("coffee", 2/10),
   ("pizza", 3/10)]

/-- Python `table.get(key, 0.0)` over one of the score dictionaries. -/
def lookupScore (table : List (String × ℚ)) (key : String) : ℚ :=
  match table.find? (fun p => p.1 == key) with
  | some p => p.2
  | none => 0

/-- `calculate_keyword_sentiment` (`app/sentiment.py` lines 175-184): sum
the weights of every keyword occurring case-insensitively as a substring
of the text, then clamp to `[-0.5, 0.5]`. -/
def calculate_keyword_sentiment (text : String) : ℚ :=
  let text_lower := text.data.map Char.toLower
  let keyword_score :=
    ((WORK_KEYWORDS.filter (fun p => containsChars text_lower p.1.data)).map
      (fun p => p.2)).sum
  pymin (pymax keyword_score (-(5/10))) (5/10)

/-- A Slack message event as read by `score_event` (`event_body["event"]`);
each field is `none` when its key is absent from the payload. -/
structure SlackEvent where
  type : Option String
  channel : Option String
  user : Option String
  ts : Option String
  text : Option String
deriving Repr, DecidableEq

/-- Python truthiness of `event.get(k)`: `None` (absent key) and the empty
string are falsy. -/
def truthy : Option String → Bool
  | some s => !s.isEmpty
  | none => false

/-- `score_event` (`app/sentiment.py` lines 208-275).  `base_of` stands for
the external VADER compound score of the text and `emoji_of` for
`calculate_emoji_sentiment`.  Returns what the call returns (`none` on the
skip paths) together with the store after the call.  Mirrors the source:
requires `event["type"] == "message"`; requires `channel`/`user`/`ts`
truthy (`text` is NOT in that check — it defaults to `""`); returns an
existing record for `(message_ts, channel_id)` unchanged; otherwise
computes `final_score = clamp(base + emoji_boost + keyword_modifier,
-1, 1)` and persists a new record with `reaction_boost = 0`. -/
def score_event (base_of emoji_of : String → ℚ) (today : ℤ)
    (ev : SlackEvent) (db : List Sentiment) :
    Option Sentiment × List Sentiment :=
  if ev.type != some "message" then (none, db)
  else if !(truthy ev.channel && truthy ev.user && truthy ev.ts) then (none, db)
  else
    let channel_id := ev.channel.getD ""
    let user_id := ev.user.getD ""
    let timestamp := ev.ts.getD ""
    let text := ev.text.getD ""
    match db.find? (fun s => s.message_ts == timestamp && s.channel_id == channel_id) with
    | some existing => (some existing, db)
    | none =>
      let base_sentiment := base_of text
      let emoji_boost := emoji_of text
      let keyword_modifier := calculate_keyword_sentiment text
      let final_score := base_sentiment + emoji_boost + keyword_modifier
      let final_score := pymin (pymax final_score (-1)) 1
      let s : Sentiment :=
        { channel_id := channel_id, user_id := some user_id,
          message_ts := timestamp, text_content := text.take 500,
          sentiment_score := base_sentiment, emoji_boost := emoji_boost,
          reaction_boost := 0, final_score := final_score,
          analysis_date := today }
      (some s, db ++ [s])

/-- The mutation `update_sentiment_with_reaction` performs on the record it
found (`app/sentiment.py` lines 292-304): add the reaction's table weight
times the direction to `reaction_boost`, then recompute
`final_score = clamp(sentiment_score + emoji_boost + reaction_boost, -1, 1)`.
The keyword modifier that `score_event` folded into `final_score` is not
stored on the record and is absent from this recomputation. -/
def applyReaction (reaction : String) (modifier : ℤ) (s : Sentiment) : Sentiment :=
  let reaction_score := lookupScore REACTION_SCORES reaction * (modifier : ℚ)
  let reaction_boost := s.reaction_boost + reaction_score
  let final_score := s.sentiment_score + s.emoji_boost + reaction_boost
  let final_score := pymin (pymax final_score (-1)) 1
  { s with reaction_boost := reaction_boost, final_score := final_score }

/-- Replace the first record satisfying `p` (SQLAlchemy `.first()` followed
by in-place mutation and commit). -/
def updateFirst (p : Sentiment → Bool) (f : Sentiment → Sentiment) :
    List Sentiment → List Sentiment
  | [] => []
  | s :: rest => if p s then f s :: rest else s :: updateFirst p f rest

/-- `update_sentiment_with_reaction` (`app/sentiment.py` lines 278-314):
look up the record by `(message_ts, channel_id)`; if absent, return
`false` with the store unchanged; otherwise apply `applyReaction` to it
and return `true`. -/
def update_sentiment_with_reaction (message_ts channel_id reaction : String)
    (modifier : ℤ) (db : List Sentiment) : Bool × List Sentiment :=
  match db.find? (fun s => s.message_ts == message_ts && s.channel_id == channel_id) with
  | none => (false, db)
  | some _ =>
      (true,
       updateFirst (fun s => s.message_ts == message_ts && s.channel_id == channel_id)
         (applyReaction reaction modifier) db)

/-! ## Aggregation engine (`app/aggregator.py`) -/

/-- `SENTIMENT_THRESHOLD_NEGATIVE` (`app/aggregator.py` line 21): env-var
configurable, default `-0.1`; the default is what this development
verifies. -/
def SENTIMENT_THRESHOLD_NEGATIVE : ℚ := -1/10

/-- `BURNOUT_DELTA_THRESHOLD` (`app/aggregator.py` line 22): env-var
configurable, default `-0.2`. -/
def BURNOUT_DELTA_THRESHOLD : ℚ := -1/5

/-- One row of the `weekly_summaries` table (`app/models.py`, class
`WeeklySummary`); `top_topics` is a hard-coded placeholder in the source
and is omitted. -/
structure WeeklySummary where
  channel_id : String
  week_start : ℤ
  week_end : ℤ
  message_count : ℕ
  avg_sentiment : ℚ
  sentiment_trend : ℚ
  burnout_flag : Bool
  engagement_level : String
  active_user_count : ℤ
deriving Repr, DecidableEq

/-- One row of the `insights` table (`app/models.py`, class `Insight`),
restricted to the columns the verified code reads or writes with
non-placeholder content.  `created_at` is the store's `func.now()`
default, i.e. the commit instant. -/
structure Insight where
  channel_id : String
  insight_type : String
  title : String
  severity : String
  recommendation : String
  is_active : Bool
  created_at : ℚ
deriving Repr, DecidableEq

/-- The week's record query of `create_weekly_summary` (`app/aggregator.py`
lines 124-130): all sentiment rows of the channel with
`week_start ≤ analysis_date ≤ week_start + 6`. -/
def week_records (db : List Sentiment) (channel_id : String) (week_start : ℤ) :
    List Sentiment :=
  db.filter (fun s => s.channel_id == channel_id &&
    decide (week_start ≤ s.analysis_date) && decide (s.analysis_date ≤ week_start + 6))

/-- Mean of the week's `final_score`s (`app/aggregator.py` lines 137-138). -/
def week_mean (db : List Sentiment) (channel_id : String) (week_start : ℤ) : ℚ :=
  let sentiments := week_records db channel_id week_start
  ((sentiments.map (fun s => s.final_score)).sum) / (sentiments.length : ℚ)

/-- The week-over-week trend of `create_weekly_summary` (`app/aggregator.py`
lines 140-156): 0 when the preceding 7-day window has no records, else
this week's mean minus the previous window's mean. -/
def week_trend (db : List Sentiment) (channel_id : String) (week_start : ℤ) : ℚ :=
  if (week_records db channel_id (week_start - 7)).isEmpty then 0
  else week_mean db channel_id week_start - week_mean db channel_id (week_start - 7)

/-- The engagement-level ladder of `create_weekly_summary`
(`app/aggregator.py` lines 164-172). -/
def engagement_level_of (avg_sentiment : ℚ) : String :=
  if avg_sentiment ≥ 3/10 then "High"
  else if avg_sentiment ≥ 1/10 then "Medium"
  else if avg_sentiment ≥ -1/10 then "Low"
  else "Critical"

/-- Python `round(x, 3)` used when storing the weekly mean and trend
(`app/aggregator.py` lines 187-188), as round-to-nearest on thousandths;
(CPython rounds the nearest double to even on exact ties — no claim below
reads a stored rounded value at a tie, so the tie rule is immaterial
here). -/
def round3 (x : ℚ) : ℚ := (round (x * 1000) : ℚ) / 1000

/-- The severity/title ladder of `generate_burnout_insight`
(`app/aggregator.py` lines 228-240), on the summary's stored mean and
trend. -/
def burnout_severity_title (avg_sentiment sentiment_trend : ℚ) : String × String :=
  if avg_sentiment ≤ -3/10 ∨ sentiment_trend ≤ -3/10 then
    ("critical", "Critical Team Burnout Detected")
  else if avg_sentiment ≤ -2/10 ∨ sentiment_trend ≤ -25/100 then
    ("high", "High Risk of Team Burnout")
  else ("medium", "Team Sentiment Declining")

/-- The conditionally assembled recommendation text of
`generate_burnout_insight` (`app/aggregator.py` lines 250-258). -/
def burnout_recommendation (avg_sentiment sentiment_trend : ℚ)
    (active_user_count : ℤ) : String :=
  let recommendations : List String :=
    (if avg_sentiment ≤ -2/10 then
      ["Schedule a team check-in to discuss workload and stress levels"] else []) ++
    (if sentiment_trend ≤ -25/100 then
      ["Investigate recent changes that may have impacted team morale"] else []) ++
    (if active_user_count < 5 then
      ["Low participation detected - consider improving team engagement"] else [])
  if recommendations.isEmpty then "Monitor closely and consider team intervention"
  else String.intercalate ". " recommendations

/-- `generate_burnout_insight` (`app/aggregator.py` lines 213-287): skip
when an active `burnout_alert` insight for the channel created within the
last 7 days exists, else append a new active `burnout_alert` whose
severity, title and recommendation are assembled from the summary's mean,
trend and active-user count; `now` is `datetime.now()` and is also the
`created_at` the store assigns on commit. -/
def generate_burnout_insight (now : ℚ) (channel_id : String)
    (weekly_summary : WeeklySummary) (db_insight : List Insight) : List Insight :=
  match db_insight.find? (fun i => i.channel_id == channel_id &&
      i.insight_type == "burnout_alert" && i.is_active &&
      decide (now - 7 ≤ i.created_at)) with
  | some _ => db_insight
  | none =>
    let avg_sentiment := weekly_summary.avg_sentiment
    let sentiment_trend := weekly_summary.sentiment_trend
    let sev_title := burnout_severity_title avg_sentiment sentiment_trend
    let recommendation :=
      burnout_recommendation avg_sentiment sentiment_trend
        weekly_summary.active_user_count
    let insight : Insight :=
      { channel_id := channel_id, insight_type := "burnout_alert",
        title := sev_title.2, severity := sev_title.1,
        recommendation := recommendation, is_active := true, created_at := now }
    db_insight ++ [insight]

/-- `create_weekly_summary` (`app/aggregator.py` lines 108-210): return an
existing summary unchanged; return nothing when the week has no records;
otherwise build the summary (mean and trend stored rounded to 3 places,
burnout flag and engagement level computed from the unrounded values,
distinct truthy user ids counted) and, when the burnout flag is set,
invoke `generate_burnout_insight` as a side effect.  The result is the
returned summary together with the insight store after the call. -/
def create_weekly_summary (now : ℚ) (channel_id : String) (week_start : ℤ)
    (db_sent : List Sentiment) (db_weekly : List WeeklySummary)
    (db_insight : List Insight) : Option WeeklySummary × List Insight :=
  let week_end := week_start + 6
  match db_weekly.find? (fun w => w.channel_id == channel_id &&
      w.week_start == week_start) with
  | some existing => (some existing, db_insight)
  | none =>
    let sentiments := week_records db_sent channel_id week_start
    if sentiments.isEmpty then (none, db_insight)
    else
      let avg_sentiment := week_mean db_sent channel_id week_start
      let sentiment_trend := week_trend db_sent channel_id week_start
      let burnout_flag := decide (sentiment_trend ≤ BURNOUT_DELTA_THRESHOLD) ||
                          decide (avg_sentiment ≤ SENTIMENT_THRESHOLD_NEGATIVE)
      let engagement_level := engagement_level_of avg_sentiment
      let active_user_count : ℤ :=
        (((sentiments.filterMap (fun s => s.user_id)).filter
          (fun u => !u.isEmpty)).dedup.length : ℤ)
      let summary : WeeklySummary :=
        { channel_id := channel_id, week_start := week_start, week_end := week_end,
          message_count := sentiments.length,
          avg_sentiment := round3 avg_sentiment,
          sentiment_trend := round3 sentiment_trend,
          burnout_flag := burnout_flag, engagement_level := engagement_level,
          active_user_count := active_user_count }
      let db_insight' :=
        if burnout_flag then generate_burnout_insight now channel_id summary db_insight
        else db_insight
      (some summary, db_insight')

/-! ## Insight engine (`app/insights.py`)

Each check below consumes the channel's weekly summaries exactly as
`generate_engagement_insights` (lines 29-33) fetches them: the last 30
days' rows ordered `week_start` DESCENDING, i.e. newest first.  The
checks take that already-ordered list as input.  The `Insight` objects
the battery constructs leave `created_at`/`is_active` to the store
defaults (`func.now()` / `True`); this embedding fixes the battery
insights' `created_at` at 0, which no verified code reads. -/

/-- `_check_burnout_patterns` (`app/insights.py` lines 52-103): with at
least 2 summaries, look at the up-to-3 most recent; emit a
`burnout_pattern` insight when at least 2 of them have mean `< -0.1`
(critical when all 3 do, else high); separately emit a
`participation_decline` insight at medium severity when the most recent
summary's active-user count is more than 2 below that of the LAST entry
of those up-to-3 recent summaries (`recent_weeks[-1]`). -/
def check_burnout_patterns (channel_id : String)
    (weekly_summaries : List WeeklySummary) : List Insight :=
  if weekly_summaries.length < 2 then []
  else
    let recent_weeks := weekly_summaries.take 3
    let negative_weeks :=
      (recent_weeks.filter (fun w => decide (w.avg_sentiment < -1/10))).length
    let pattern_insights : List Insight :=
      if negative_weeks ≥ 2 then
        let insight : Insight :=
          { channel_id := channel_id, insight_type := "burnout_pattern",
            title := "Sustained Negative Sentiment Detected",
            severity := if negative_weeks == 3 then "critical" else "high",
            recommendation := "Schedule immediate team check-in. Consider workload redistribution and stress management support.",
            is_active := true, created_at := 0 }
        [insight]
      else []
    let decline_insights : List Insight :=
      if recent_weeks.length ≥ 2 then
        match recent_weeks.head?, recent_weeks.getLast? with
        | some w0, some wlast =>
          let participation_trend := w0.active_user_count - wlast.active_user_count
          if participation_trend < -2 then
            let insight : Insight :=
              { channel_id := channel_id, insight_type := "participation_decline",
                title := "Team Participation Declining", severity := "medium",
                recommendation := "Investigate barriers to participation. Consider team engagement activities.",
                is_active := true, created_at := 0 }
            [insight]
          else []
        | _, _ => []
      else []
    pattern_insights ++ decline_insights

/-- `_check_engagement_spikes` (`app/insights.py` lines 106-159): with at
least 2 summaries, emit a low-severity `engagement_spike` insight when
the most recent mean is strictly greater than 0.3 and exceeds the prior
week's mean by strictly more than 0.2; independently emit a low-severity
`high_participation` insight when the most recent active-user count
exceeds 10 and is more than 1.3 times the mean count of the last up-to-4
summaries. -/
def check_engagement_spikes (channel_id : String)
    (weekly_summaries : List WeeklySummary) : List Insight :=
  if weekly_summaries.length < 2 then []
  else
    match weekly_summaries with
    | [] => []
    | recent_week :: rest =>
      let spike_insights : List Insight :=
        match rest.head? with
        | some previous_week =>
          let sentiment_improvement :=
            recent_week.avg_sentiment - previous_week.avg_sentiment
          if decide (recent_week.avg_sentiment > 3/10) &&
             decide (sentiment_improvement > 2/10) then
            let insight : Insight :=
              { channel_id := channel_id, insight_type := "engagement_spike",
                title := "Exceptional Team Morale Boost", severity := "low",
                recommendation := "Identify and document what contributed to this positive change to replicate success.",
                is_active := true, created_at := 0 }
            [insight]
          else []
        | none => []
      let participation_insights : List Insight :=
        if recent_week.active_user_count > 10 then
          let avg_participation : ℚ :=
            (((weekly_summaries.take 4).map (fun w => w.active_user_count)).sum : ℚ) /
              ((min weekly_summaries.length 4 : ℕ) : ℚ)
          if decide ((recent_week.active_user_count : ℚ) > avg_participation * (13/10)) then
            let insight : Insight :=
              { channel_id := channel_id, insight_type := "high_participation",
                title := "Exceptional Team Participation", severity := "low",
                recommendation := "Celebrate this engagement! Consider what factors contributed to high participation.",
                is_active := true, created_at := 0 }
            [insight]
          else []
        else []
      spike_insights ++ participation_insights

/-- `_check_participation_trends` (`app/insights.py` lines 162-216): with
at least 3 summaries, take the active-user counts of the up-to-4 most
recent summaries IN FETCHED (newest-first) ORDER, fit an ordinary
least-squares slope of count against week index 0,1,2,... (0 = most
recent), and emit a medium-severity `participation_trend` (declining)
insight when the slope is below -0.5, or a low-severity
`participation_growth` insight when it is above 0.5. -/
def check_participation_trends (channel_id : String)
    (weekly_summaries : List WeeklySummary) : List Insight :=
  if weekly_summaries.length < 3 then []
  else
    let participation_counts : List ℤ :=
      (weekly_summaries.take 4).map (fun w => w.active_user_count)
    let weeks := List.range participation_counts.length
    if weeks.length > 1 then
      let n : ℚ := (weeks.length : ℚ)
      let sum_x : ℚ := (weeks.sum : ℚ)
      let sum_y_int : ℤ := participation_counts.sum
      let sum_y : ℚ := (sum_y_int : ℚ)
      let sum_xy_int : ℤ :=
        ((weeks.zip participation_counts).map (fun p => (p.1 : ℤ) * p.2)).sum
      let sum_xy : ℚ := (sum_xy_int : ℚ)
      let sum_x2_nat : ℕ := (weeks.map (fun w => w * w)).sum
      let sum_x2 : ℚ := (sum_x2_nat : ℚ)
      let slope := (n * sum_xy - sum_x * sum_y) / (n * sum_x2 - sum_x * sum_x)
      if slope < -(1/2) then
        let insight : Insight :=
          { channel_id := channel_id, insight_type := "participation_trend",
            title := "Declining Participation Trend", severity := "medium",
            recommendation := "Investigate causes of reduced participation. Consider team surveys or one-on-ones.",
            is_active := true, created_at := 0 }
        [insight]
      else if slope > 1/2 then
        let insight : Insight :=
          { channel_id := channel_id, insight_type := "participation_growth",
            title := "Growing Team Participation", severity := "low",
            recommendation := "Continue current engagement strategies. Document successful practices.",
            is_active := true, created_at := 0 }
        [insight]
      else []
    else []

/-- `_check_sentiment_volatility` (`app/insights.py` lines 219-252): with
at least 4 summaries, compute the population variance of the last 4
weekly means and emit a medium-severity `sentiment_volatility` insight
when the standard deviation exceeds 0.3.  The source compares
`variance ** 0.5 > 0.3`; over nonnegative values that is equivalent to
`variance > 0.09`, which is how this embedding states it (ℚ has no exact
square root). -/
def check_sentiment_volatility (channel_id : String)
    (weekly_summaries : List WeeklySummary) : List Insight :=
  if weekly_summaries.length < 4 then []
  else
    let recent_sentiments := (weekly_summaries.take 4).map (fun w => w.avg_sentiment)
    let mean_sentiment := recent_sentiments.sum / (recent_sentiments.length : ℚ)
    let variance :=
      ((recent_sentiments.map (fun s => (s - mean_sentiment) ^ 2)).sum) /
        (recent_sentiments.length : ℚ)
    if variance > 9/100 then
      let insight : Insight :=
        { channel_id := channel_id, insight_type := "sentiment_volatility",
          title := "High Sentiment Volatility Detected", severity := "medium",
          recommendation := "Investigate causes of sentiment swings. Consider more frequent team check-ins.",
          is_active := true, created_at := 0 }
      [insight]
    else []

/-- `generate_engagement_insights` (`app/insights.py` lines 20-49) on the
already-fetched newest-first weekly summaries of the channel: nothing for
an empty list, else the union of the four rule checks. -/
def generate_engagement_insights (channel_id : String)
    (weekly_summaries : List WeeklySummary) : List Insight :=
  if weekly_summaries.isEmpty then []
  else
    check_burnout_patterns channel_id weekly_summaries ++
    check_engagement_spikes channel_id weekly_summaries ++
    check_participation_trends channel_id weekly_summaries ++
    check_sentiment_volatility channel_id weekly_summaries

/-- One entry of the `recommendations` list built by
`generate_channel_recommendations` (type and urgency; title/description
are fixed strings per type). -/
structure Recommendation where
  rec_type : String
  urgency : String
deriving Repr, DecidableEq

/-- `generate_channel_recommendations` (`app/insights.py` lines 255-319),
taking the most recent weekly summary of the channel (the first row of
the `week_start`-descending query) as input: `none` models the
`{"error": ...}` return for a channel with no summary.  Mirrors the
source statement by statement: `priority_level` starts at `"low"`; the
burnout rule assigns `"high"`; the negative-mean rule assigns
`max(priority_level, "medium")` — CPython string `max`, i.e. pyStrMax;
the low-participation and High-engagement rules append recommendations
without touching `priority_level`. -/
def generate_channel_recommendations (recent_summary : Option WeeklySummary) :
    Option (String × List Recommendation) :=
  match recent_summary with
  | none => none
  | some rs =>
    let priority_level := "low"
    let recommendations : List Recommendation := []
    let st :=
      if rs.burnout_flag then
        ("high", recommendations ++ [Recommendation.mk "immediate_action" "high"])
      else (priority_level, recommendations)
    let st :=
      if decide (rs.avg_sentiment < -1/10) then
        (pyStrMax st.1 "medium", st.2 ++ [Recommendation.mk "sentiment_improvement" "medium"])
      else st
    let st :=
      if rs.active_user_count < 5 then
        (st.1, st.2 ++ [Recommendation.mk "engagement_boost" "medium"])
      else st
    let st :=
      if rs.engagement_level == "High" then
        (st.1, st.2 ++ [Recommendation.mk "maintain_momentum" "low"])
      else st
    some st

/-- Whether the insight list contains an insight of the given kind
(helper for the statements below, not source code). -/
def hasInsightType (l : List Insight) (t : String) : Bool :=
  l.any (fun i => i.insight_type == t)

/-- The active `burnout_alert` insights of a channel (helper for the
statements below, not source code). -/
def activeBurnoutAlerts (db : List Insight) (channel_id : String) : List Insight :=
  db.filter (fun i => i.channel_id == channel_id &&
    i.insight_type == "burnout_alert" && i.is_active)

/-! ## Helper lemmas -/

theorem pymin_eq_min (a b : ℚ) : pymin a b = min a b := (min_def a b).symm

theorem pymax_eq_max (a b : ℚ) : pymax a b = max a b := (max_def a b).symm

theorem clamp_bounds (x : ℚ) :
    -1 ≤ pymin (pymax x (-1)) 1 ∧ pymin (pymax x (-1)) 1 ≤ 1 := by
  rw [pymin_eq_min, pymax_eq_max]
  exact ⟨le_min (le_max_right _ _) (by norm_num), min_le_right _ _⟩

theorem applyReaction_final_bounds (r : String) (m : ℤ) (s : Sentiment) :
    -1 ≤ (applyReaction r m s).final_score ∧ (applyReaction r m s).final_score ≤ 1 := by
  simp only [applyReaction]
  exact clamp_bounds _

theorem foldl_applyReaction_bounds (updates : List (String × ℤ)) (s : Sentiment)
    (h : -1 ≤ s.final_score ∧ s.final_score ≤ 1) :
    -1 ≤ (updates.foldl (fun t u => applyReaction u.1 u.2 t) s).final_score ∧
      (updates.foldl (fun t u => applyReaction u.1 u.2 t) s).final_score ≤ 1 := by
  induction updates generalizing s with
  | nil => exact h
  | cons u rest ih => exact ih _ (applyReaction_final_bounds u.1 u.2 s)

theorem find?_append_of_none {α : Type} (p : α → Bool) (l1 l2 : List α)
    (h : l1.find? p = none) : (l1 ++ l2).find? p = l2.find? p := by
  induction l1 with
  | nil => rfl
  | cons a l ih =>
    cases hpa : p a with
    | true =>
      rw [List.find?_cons_of_pos _ hpa] at h
      cases h
    | false =>
      rw [List.find?_cons_of_neg _ (by simp [hpa])] at h
      rw [List.cons_append, List.find?_cons_of_neg _ (by simp [hpa])]
      exact ih h

theorem create_weekly_summary_fresh (now : ℚ) (ch : String) (week_start : ℤ)
    (db_sent : List Sentiment) (db_weekly : List WeeklySummary)
    (db_insight : List Insight)
    (hex : db_weekly.find? (fun w => w.channel_id == ch &&
      w.week_start == week_start) = none)
    (hne : (week_records db_sent ch week_start).isEmpty = false) :
    (create_weekly_summary now ch week_start db_sent db_weekly db_insight).1 =
      some
        { channel_id := ch, week_start := week_start, week_end := week_start + 6,
          message_count := (week_records db_sent ch week_start).length,
          avg_sentiment := round3 (week_mean db_sent ch week_start),
          sentiment_trend := round3 (week_trend db_sent ch week_start),
          burnout_flag :=
            decide (week_trend db_sent ch week_start ≤ BURNOUT_DELTA_THRESHOLD) ||
            decide (week_mean db_sent ch week_start ≤ SENTIMENT_THRESHOLD_NEGATIVE),
          engagement_level := engagement_level_of (week_mean db_sent ch week_start),
          active_user_count :=
            ((((week_records db_sent ch week_start).filterMap
              (fun s => s.user_id)).filter (fun u => !u.isEmpty)).dedup.length : ℤ) } := by
  simp only [create_weekly_summary, hex, hne]
  simp

/-! ## The claims -/

/-- Claim C1 (the claim FAILS on the code — code bug).  The claim says:
applying a reaction with direction +1 and then the same reaction with
direction -1 returns `reaction_boost` to its prior value and
`final_score` to its pre-reaction value, for every record, including one
whose text carries a nonzero keyword modifier.  On the failing input —
message text `"shipped"` (keyword modifier +0.2, so with base and emoji
components 0 the scored `final_score` is 1/5), reaction `"thumbsup"`
(weight 0.5) applied with +1 then -1 — the code restores
`reaction_boost = 0` but leaves `final_score = 0`, not 1/5: the
reaction-update recomputation `clamp(base + emoji + reaction)` drops the
keyword modifier, which the record does not store. -/
theorem C1_reaction_removal_drops_keyword_modifier :
    ((score_event (fun _ => 0) (fun _ => 0) 0
        ⟨some "message", some "C1", some "U1", some "1", some "shipped"⟩ []).2).map
        (fun s => (s.reaction_boost, s.final_score)) = [(0, 1/5)] ∧
    ((update_sentiment_with_reaction "1" "C1" "thumbsup" (-1)
        ((update_sentiment_with_reaction "1" "C1" "thumbsup" 1
          ((score_event (fun _ => 0) (fun _ => 0) 0
            ⟨some "message", some "C1", some "U1", some "1", some "shipped"⟩ []).2)).2)).2).map
        (fun s => (s.reaction_boost, s.final_score)) = [(0, 0)] ∧
    (1/5 : ℚ) ≠ 0 := by
  have hkw : calculate_keyword_sentiment "shipped" = 1/5 := by
    have hfil : (WORK_KEYWORDS.filter
        (fun p => containsChars ("shipped".data.map Char.toLower) p.1.data)) =
        [("shipped", 2/10)] := rfl
    simp only [calculate_keyword_sentiment]
    rw [hfil]
    norm_num [pymin, pymax]
  have hl : lookupScore REACTION_SCORES "thumbsup" = 5/10 := rfl
  have h0 : (score_event (fun _ => 0) (fun _ => 0) 0
      ⟨some "message", some "C1", some "U1", some "1", some "shipped"⟩ []).2 =
      [⟨"C1", some "U1", "1", "shipped".take 500, 0, 0, 0,
        pymin (pymax (0 + 0 + calculate_keyword_sentiment "shipped") (-1)) 1, 0⟩] := rfl
  have h1 : (update_sentiment_with_reaction "1" "C1" "thumbsup" 1
      [(⟨"C1", some "U1", "1", "shipped".take 500, 0, 0, 0,
        pymin (pymax (0 + 0 + calculate_keyword_sentiment "shipped") (-1)) 1, 0⟩ : Sentiment)]).2 =
      [applyReaction "thumbsup" 1
        ⟨"C1", some "U1", "1", "shipped".take 500, 0, 0, 0,
          pymin (pymax (0 + 0 + calculate_keyword_sentiment "shipped") (-1)) 1, 0⟩] := rfl
  have h2 : (update_sentiment_with_reaction "1" "C1" "thumbsup" (-1)
      [applyReaction "thumbsup" 1
        (⟨"C1", some "U1", "1", "shipped".take 500, 0, 0, 0,
          pymin (pymax (0 + 0 + calculate_keyword_sentiment "shipped") (-1)) 1, 0⟩ : Sentiment)]).2 =
      [applyReaction "thumbsup" (-1) (applyReaction "thumbsup" 1
        ⟨"C1", some "U1", "1", "shipped".take 500, 0, 0, 0,
          pymin (pymax (0 + 0 + calculate_keyword_sentiment "shipped") (-1)) 1, 0⟩)] := rfl
  refine ⟨?_, ?_, by norm_num⟩
  · rw [h0]
    simp only [List.map]
    rw [hkw]
    norm_num [pymin, pymax]
  · rw [h0, h1, h2]
    simp only [List.map]
    norm_num [applyReaction, hl, hkw, pymin, pymax]

/-- Claim C2 (the claim FAILS on the code — code bug).  The claim says the
returned `priority_level` is the maximum severity over the triggered
rules, so burnout yields "high" regardless of other rules and the
mean/active-users rules alone yield "medium".  On the failing inputs: a
most-recent summary with `burnout_flag = true` and mean -0.2 returns
"medium" (CPython `max(priority_level, "medium")` compares strings
lexicographically and `"high" < "medium"`); a summary where only the
active-users rule triggers (burnout false, mean 0, 3 active users)
returns "low" (that rule never writes `priority_level`). -/
theorem C2_priority_level_divergence :
    (generate_channel_recommendations
        (some ⟨"C", 0, 6, 1, -1/5, 0, true, "Low", 5⟩)).map Prod.fst = some "medium" ∧
    (generate_channel_recommendations
        (some ⟨"C", 0, 6, 1, 0, 0, false, "Low", 3⟩)).map Prod.fst = some "low" := by
  have hmax : pyStrMax "high" "medium" = "medium" := rfl
  constructor
  · norm_num [generate_channel_recommendations, hmax]
    rw [if_neg (by decide)]
  · norm_num [generate_channel_recommendations]
    rw [if_neg (by decide)]

/-- Claim C3, counterexample.  The claim says the `participation_decline`
insight is emitted exactly when the most recent week is more than 2
active users below the IMMEDIATELY PRECEDING week.  With three summaries
whose counts, newest first, are 10, 13, 10 (all means 0), the most recent
week is 3 below the immediately preceding one (13 - 10 > 2), yet the
check emits nothing: the code compares against `recent_weeks[-1]`, the
THIRD most recent week (count 10, difference 0). -/
theorem C3_participation_decline_window_cex :
    hasInsightType (check_burnout_patterns "C"
      [⟨"C", 0, 6, 1, 0, 0, false, "Low", 10⟩,
       ⟨"C", 0, 6, 1, 0, 0, false, "Low", 13⟩,
       ⟨"C", 0, 6, 1, 0, 0, false, "Low", 10⟩]) "participation_decline" = false ∧
    ((13 : ℤ) - 10 > 2) := by
  constructor
  · norm_num [check_burnout_patterns, hasInsightType]
  · norm_num

/-- Claim C3 as amended: with at least 2 recent weekly summaries
(newest first), the medium-severity `participation_decline` insight is
emitted exactly when the most recent count is more than 2 below the count
of the LAST of the up-to-3 most recent summaries — the immediately
preceding week only when exactly 2 summaries exist; the third most recent
week when 3 or more exist. -/
theorem C3_participation_decline_amended (ch : String) (w0 w1 : WeeklySummary) :
    (hasInsightType (check_burnout_patterns ch [w0, w1]) "participation_decline" = true ↔
      w0.active_user_count - w1.active_user_count < -2) ∧
    ∀ (w2 : WeeklySummary) (rest : List WeeklySummary),
      (hasInsightType (check_burnout_patterns ch (w0 :: w1 :: w2 :: rest))
          "participation_decline" = true ↔
        w0.active_user_count - w2.active_user_count < -2) := by
  constructor
  · simp only [check_burnout_patterns]
    norm_num [hasInsightType]
    split_ifs <;> aesop
  · intro w2 rest
    simp only [check_burnout_patterns]
    norm_num [hasInsightType, List.take]
    split_ifs <;> aesop

/-- Claim C4, counterexample.  The claim says the `engagement_spike`
insight is emitted when the most recent mean is at least 0.3 (boundary
included) and the improvement exceeds 0.2.  With means 0.3 (most recent)
and 0 (prior) — improvement 0.3 > 0.2 and mean exactly 0.3 — the check
emits nothing: the code requires the mean to be STRICTLY greater
than 0.3. -/
theorem C4_engagement_spike_boundary_cex :
    check_engagement_spikes "C"
      [⟨"C", 0, 6, 1, 3/10, 0, false, "Low", 0⟩,
       ⟨"C", 0, 6, 1, 0, 0, false, "Low", 0⟩] = [] ∧
    ((3/10 : ℚ) ≥ 3/10 ∧ (3/10 : ℚ) - 0 > 2/10) := by
  constructor
  · norm_num [check_engagement_spikes]
  · norm_num

/-- Claim C4 as amended: with at least 2 weekly summaries (newest first),
the low-severity `engagement_spike` insight is emitted exactly when the
most recent mean is STRICTLY greater than 0.3 and it exceeds the prior
week's mean by strictly more than 0.2 (a mean of exactly 0.3 never
emits). -/
theorem C4_engagement_spike_amended (ch : String) (w0 w1 : WeeklySummary)
    (rest : List WeeklySummary) :
    hasInsightType (check_engagement_spikes ch (w0 :: w1 :: rest))
        "engagement_spike" = true ↔
      (w0.avg_sentiment > 3/10 ∧ w0.avg_sentiment - w1.avg_sentiment > 2/10) := by
  simp only [check_engagement_spikes]
  norm_num [hasInsightType]
  aesop

/-- Claim C5, counterexample.  The claim says a message event missing any
of channel id, user id, timestamp or TEXT is not scored.  A message event
with channel, user and timestamp present but no `text` key IS scored: the
code checks only the first three (`all([channel_id, user_id, timestamp])`)
and defaults the text to `""`, so `score_event` returns a record and
appends it to the store. -/
theorem C5_missing_text_still_scored_cex :
    ((score_event (fun _ => 0) (fun _ => 0) 0
        ⟨some "message", some "C1", some "U1", some "1", none⟩ []).1).isSome = true ∧
    ((score_event (fun _ => 0) (fun _ => 0) 0
        ⟨some "message", some "C1", some "U1", some "1", none⟩ []).2).length = 1 :=
  ⟨rfl, rfl⟩

/-- Claim C5 as amended: the required fields are only {channel id,
user id, timestamp}; `score_event` is a no-op (returns nothing, store
unchanged) whenever the event is not a message or any of those three is
absent or empty — an absent text defaults to the empty string and the
message is still scored. -/
theorem C5_required_fields_amended (base_of emoji_of : String → ℚ) (today : ℤ)
    (ev : SlackEvent) (db : List Sentiment)
    (h : ev.type ≠ some "message" ∨ truthy ev.channel = false ∨
      truthy ev.user = false ∨ truthy ev.ts = false) :
    score_event base_of emoji_of today ev db = (none, db) := by
  unfold score_event
  rcases h with h | h | h | h
  · rw [if_pos]
    simp [bne_iff_ne, h]
  all_goals
    by_cases ht : ev.type != some "message"
    · rw [if_pos ht]
    · rw [if_neg ht, if_pos (by simp [h])]

/-- Witness for C5: a message event whose `user` field is absent is a
no-op on the empty store. -/
theorem C5_required_fields_amended_witness :
    score_event (fun _ => 0) (fun _ => 0) 0
      ⟨some "message", some "C1", none, some "1", some "hello"⟩ [] = (none, []) :=
  C5_required_fields_amended (fun _ => 0) (fun _ => 0) 0
    ⟨some "message", some "C1", none, some "1", some "hello"⟩ []
    (Or.inr (Or.inr (Or.inl rfl)))

/-- Claim C6 (confirmed): a weekly summary freshly created under the
default thresholds has `burnout_flag = true` exactly when the
week-over-week trend is at most -0.2 or the weekly mean final score is at
most -0.1, where the trend is this week's mean minus the prior 7-day
window's mean, or 0 when the prior window has no records (`week_trend`). -/
theorem C6_burnout_flag (now : ℚ) (ch : String) (week_start : ℤ)
    (db_sent : List Sentiment) (db_weekly : List WeeklySummary)
    (db_insight : List Insight)
    (hex : db_weekly.find? (fun w => w.channel_id == ch &&
      w.week_start == week_start) = none)
    (hne : (week_records db_sent ch week_start).isEmpty = false) :
    ∃ s, (create_weekly_summary now ch week_start db_sent db_weekly db_insight).1 =
        some s ∧
      (s.burnout_flag = true ↔
        (week_trend db_sent ch week_start ≤ -1/5 ∨
          week_mean db_sent ch week_start ≤ -1/10)) := by
  refine ⟨_, create_weekly_summary_fresh now ch week_start db_sent db_weekly
    db_insight hex hne, ?_⟩
  simp [BURNOUT_DELTA_THRESHOLD, SENTIMENT_THRESHOLD_NEGATIVE]

/-- Witness for C6: one record with final score -1/4 in the week starting
at day 0 (mean -1/4 ≤ -1/10, trend 0) — flagged. -/
theorem C6_burnout_flag_witness :
    ∃ s, (create_weekly_summary 0 "C" 0
        [⟨"C", some "U1", "t1", "x", 0, 0, 0, -1/4, 0⟩] [] []).1 = some s ∧
      (s.burnout_flag = true ↔
        (week_trend [⟨"C", some "U1", "t1", "x", 0, 0, 0, -1/4, 0⟩] "C" 0 ≤ -1/5 ∨
          week_mean [⟨"C", some "U1", "t1", "x", 0, 0, 0, -1/4, 0⟩] "C" 0 ≤ -1/10)) :=
  C6_burnout_flag 0 "C" 0 [⟨"C", some "U1", "t1", "x", 0, 0, 0, -1/4, 0⟩] [] [] rfl rfl

/-- Claim C7 (confirmed): a freshly created weekly summary's engagement
level is computed from the unrounded weekly mean by the four-way ladder,
and that ladder assigns "High" exactly when the mean is at least 0.3,
"Medium" exactly on [0.1, 0.3), "Low" exactly on [-0.1, 0.1) (the -0.1
boundary inclusive), and "Critical" exactly below -0.1. -/
theorem C7_engagement_level (now : ℚ) (ch : String) (week_start : ℤ)
    (db_sent : List Sentiment) (db_weekly : List WeeklySummary)
    (db_insight : List Insight)
    (hex : db_weekly.find? (fun w => w.channel_id == ch &&
      w.week_start == week_start) = none)
    (hne : (week_records db_sent ch week_start).isEmpty = false) :
    ∃ s, (create_weekly_summary now ch week_start db_sent db_weekly db_insight).1 =
        some s ∧
      s.engagement_level = engagement_level_of (week_mean db_sent ch week_start) ∧
      ∀ q : ℚ,
        (engagement_level_of q = "High" ↔ q ≥ 3/10) ∧
        (engagement_level_of q = "Medium" ↔ 1/10 ≤ q ∧ q < 3/10) ∧
        (engagement_level_of q = "Low" ↔ -1/10 ≤ q ∧ q < 1/10) ∧
        (engagement_level_of q = "Critical" ↔ q < -1/10) := by
  refine ⟨_, create_weekly_summary_fresh now ch week_start db_sent db_weekly
    db_insight hex hne, rfl, ?_⟩
  intro q
  unfold engagement_level_of
  split_ifs with h1 h2 h3 <;> refine ⟨?_, ?_, ?_, ?_⟩ <;> simp <;>
    first | linarith | (intro; linarith) | (constructor <;> linarith)

/-- Witness for C7: one record with final score 0 in the week starting at
day 0. -/
theorem C7_engagement_level_witness :
    ∃ s, (create_weekly_summary 0 "C" 0
        [⟨"C", some "U1", "t1", "x", 0, 0, 0, 0, 0⟩] [] []).1 = some s ∧
      s.engagement_level =
        engagement_level_of (week_mean [⟨"C", some "U1", "t1", "x", 0, 0, 0, 0, 0⟩] "C" 0) ∧
      ∀ q : ℚ,
        (engagement_level_of q = "High" ↔ q ≥ 3/10) ∧
        (engagement_level_of q = "Medium" ↔ 1/10 ≤ q ∧ q < 3/10) ∧
        (engagement_level_of q = "Low" ↔ -1/10 ≤ q ∧ q < 1/10) ∧
        (engagement_level_of q = "Critical" ↔ q < -1/10) :=
  C7_engagement_level 0 "C" 0 [⟨"C", some "U1", "t1", "x", 0, 0, 0, 0, 0⟩] [] [] rfl rfl

/-- Claim C8 (confirmed): any record `score_event` returns (over a store
whose records are clamped) has a final score in [-1, 1] after any
sequence of reaction updates, however extreme the component sums — both
`score_event` and the reaction update clamp the recomputed score. -/
theorem C8_final_score_clamped (base_of emoji_of : String → ℚ) (today : ℤ)
    (ev : SlackEvent) (db : List Sentiment) (s : Sentiment)
    (updates : List (String × ℤ))
    (hdb : ∀ t ∈ db, -1 ≤ t.final_score ∧ t.final_score ≤ 1)
    (hs : (score_event base_of emoji_of today ev db).1 = some s) :
    -1 ≤ (updates.foldl (fun t u => applyReaction u.1 u.2 t) s).final_score ∧
      (updates.foldl (fun t u => applyReaction u.1 u.2 t) s).final_score ≤ 1 := by
  apply foldl_applyReaction_bounds
  simp only [score_event] at hs
  split at hs
  · simp at hs
  · split at hs
    · simp at hs
    · split at hs
      · rename_i existing heq
        simp only [Option.some.injEq] at hs
        subst hs
        exact hdb _ (List.mem_of_find?_eq_some heq)
      · simp only [Option.some.injEq] at hs
        subst hs
        exact clamp_bounds _

/-- Witness for C8: an extreme base score of 7 on text "hello", then one
thumbsup; the final score stays in [-1, 1]. -/
theorem C8_final_score_clamped_witness :
    -1 ≤ ([(("thumbsup" : String), (1 : ℤ))].foldl
        (fun t u => applyReaction u.1 u.2 t)
        ⟨"C1", some "U1", "1", "hello".take 500, 7, 0, 0,
          pymin (pymax (7 + 0 + calculate_keyword_sentiment "hello") (-1)) 1, 0⟩).final_score ∧
      ([(("thumbsup" : String), (1 : ℤ))].foldl
        (fun t u => applyReaction u.1 u.2 t)
        ⟨"C1", some "U1", "1", "hello".take 500, 7, 0, 0,
          pymin (pymax (7 + 0 + calculate_keyword_sentiment "hello") (-1)) 1, 0⟩).final_score ≤ 1 :=
  C8_final_score_clamped (fun _ => 7) (fun _ => 0) 0
    ⟨some "message", some "C1", some "U1", some "1", some "hello"⟩ []
    ⟨"C1", some "U1", "1", "hello".take 500, 7, 0, 0,
      pymin (pymax (7 + 0 + calculate_keyword_sentiment "hello") (-1)) 1, 0⟩
    [("thumbsup", 1)] (by simp) rfl

/-- Claim C9 (confirmed): when a channel has no active `burnout_alert`
insight, a weekly burnout trigger creates exactly one, and a second
trigger at any time up to 7 days later is skipped by the dedup check and
changes nothing, leaving exactly one active `burnout_alert` for the
channel. -/
theorem C9_burnout_alert_dedup (db : List Insight) (ch : String)
    (s1 s2 : WeeklySummary) (t1 t2 : ℚ)
    (hdb : activeBurnoutAlerts db ch = [])
    (_h12 : t1 ≤ t2) (h27 : t2 ≤ t1 + 7) :
    generate_burnout_insight t2 ch s2 (generate_burnout_insight t1 ch s1 db) =
      generate_burnout_insight t1 ch s1 db ∧
    (activeBurnoutAlerts (generate_burnout_insight t1 ch s1 db) ch).length = 1 := by
  have hnone : ∀ t : ℚ, db.find? (fun i => i.channel_id == ch &&
      i.insight_type == "burnout_alert" && i.is_active &&
      decide (t - 7 ≤ i.created_at)) = none := by
    intro t
    rw [List.find?_eq_none]
    intro i hi
    have hfil := List.filter_eq_nil_iff.mp hdb i hi
    intro h
    apply hfil
    simp only [Bool.and_eq_true] at h ⊢
    exact h.1
  have hdb1 : generate_burnout_insight t1 ch s1 db = db ++
      [⟨ch, "burnout_alert",
        (burnout_severity_title s1.avg_sentiment s1.sentiment_trend).2,
        (burnout_severity_title s1.avg_sentiment s1.sentiment_trend).1,
        burnout_recommendation s1.avg_sentiment s1.sentiment_trend
          s1.active_user_count, true, t1⟩] := by
    simp only [generate_burnout_insight, hnone t1]
  have ht27 : t2 - 7 ≤ t1 := by linarith
  constructor
  · rw [hdb1]
    simp only [generate_burnout_insight]
    rw [find?_append_of_none _ _ _ (hnone t2)]
    simp [ht27, h27, List.find?_cons]
  · rw [hdb1]
    simp only [activeBurnoutAlerts] at hdb ⊢
    rw [List.filter_append, hdb]
    simp

/-- Witness for C9: two triggers at days 0 and 7 on an empty insight
store leave one active alert and the second run is a no-op. -/
theorem C9_burnout_alert_dedup_witness :
    generate_burnout_insight 7 "C" ⟨"C", 0, 6, 1, -1/4, 0, true, "Critical", 1⟩
        (generate_burnout_insight 0 "C" ⟨"C", 0, 6, 1, -1/4, 0, true, "Critical", 1⟩ []) =
      generate_burnout_insight 0 "C" ⟨"C", 0, 6, 1, -1/4, 0, true, "Critical", 1⟩ [] ∧
    (activeBurnoutAlerts
        (generate_burnout_insight 0 "C" ⟨"C", 0, 6, 1, -1/4, 0, true, "Critical", 1⟩ [])
        "C").length = 1 :=
  C9_burnout_alert_dedup [] "C" ⟨"C", 0, 6, 1, -1/4, 0, true, "Critical", 1⟩
    ⟨"C", 0, 6, 1, -1/4, 0, true, "Critical", 1⟩ 0 7 rfl (by norm_num) (by norm_num)

/-- Claim C10 (confirmed): the participation-trend check receives the
summaries newest first and assigns week index 0 to the most recent one
without reversing, so when the active-user counts strictly DECREASE in
calendar time (strictly increase in the fetched order) the least-squares
slope over the up-to-4 most recent counts exceeds 0.5 and the check emits
exactly the low-severity `participation_growth` insight and no
`participation_trend` insight; symmetrically, counts strictly increasing
in calendar time emit exactly the declining `participation_trend`
insight.  (Strictly decreasing integer counts drop by at least 1 per
week, satisfying the claimed more-than-0.5 average decline.) -/
theorem C10_participation_slope_orientation (ch : String)
    (ws : List WeeklySummary) (h3 : 3 ≤ ws.length) :
    (List.Chain' (fun a b => a.active_user_count < b.active_user_count) ws →
      (check_participation_trends ch ws).map (fun i => i.insight_type) =
        ["participation_growth"]) ∧
    (List.Chain' (fun a b => b.active_user_count < a.active_user_count) ws →
      (check_participation_trends ch ws).map (fun i => i.insight_type) =
        ["participation_trend"]) := by
  match ws, h3 with
  | w0 :: w1 :: w2 :: rest, _ =>
    cases rest with
    | nil =>
      constructor
      · intro hch
        rw [List.chain'_cons, List.chain'_cons] at hch
        obtain ⟨ha, hb, -⟩ := hch
        have ha2 : w0.active_user_count + 2 ≤ w2.active_user_count := by omega
        have ha2q : (w0.active_user_count : ℚ) + 2 ≤ (w2.active_user_count : ℚ) := by
          exact_mod_cast ha2
        simp only [check_participation_trends]
        norm_num [List.take, List.range_succ]
        rw [if_neg (by rw [div_lt_iff₀ (by norm_num : (0:ℚ) < 6)]; linarith),
          if_pos (by rw [lt_div_iff₀ (by norm_num : (0:ℚ) < 6)]; linarith)]
        rfl
      · intro hch
        rw [List.chain'_cons, List.chain'_cons] at hch
        obtain ⟨ha, hb, -⟩ := hch
        have ha2 : w2.active_user_count + 2 ≤ w0.active_user_count := by omega
        have ha2q : (w2.active_user_count : ℚ) + 2 ≤ (w0.active_user_count : ℚ) := by
          exact_mod_cast ha2
        simp only [check_participation_trends]
        norm_num [List.take, List.range_succ]
        rw [if_pos (by rw [div_lt_iff₀ (by norm_num : (0:ℚ) < 6)]; linarith)]
        rfl
    | cons w3 rest2 =>
      constructor
      · intro hch
        rw [List.chain'_cons, List.chain'_cons, List.chain'_cons] at hch
        obtain ⟨ha, hb, hc, -⟩ := hch
        have ha3 : w0.active_user_count + 3 ≤ w3.active_user_count := by omega
        have ha3q : (w0.active_user_count : ℚ) + 3 ≤ (w3.active_user_count : ℚ) := by
          exact_mod_cast ha3
        have hbq : (w1.active_user_count : ℚ) < (w2.active_user_count : ℚ) := by
          exact_mod_cast hb
        simp only [check_participation_trends]
        norm_num [List.take, List.range_succ]
        rw [if_neg (by omega),
          if_neg (by rw [div_lt_iff₀ (by norm_num : (0:ℚ) < 20)]; linarith),
          if_pos (by rw [lt_div_iff₀ (by norm_num : (0:ℚ) < 20)]; linarith)]
        rfl
      · intro hch
        rw [List.chain'_cons, List.chain'_cons, List.chain'_cons] at hch
        obtain ⟨ha, hb, hc, -⟩ := hch
        have ha3 : w3.active_user_count + 3 ≤ w0.active_user_count := by omega
        have ha3q : (w3.active_user_count : ℚ) + 3 ≤ (w0.active_user_count : ℚ) := by
          exact_mod_cast ha3
        have hbq : (w2.active_user_count : ℚ) < (w1.active_user_count : ℚ) := by
          exact_mod_cast hb
        simp only [check_participation_trends]
        norm_num [List.take, List.range_succ]
        rw [if_neg (by omega),
          if_pos (by rw [div_lt_iff₀ (by norm_num : (0:ℚ) < 20)]; linarith)]
        rfl

/-- Witness for C10: three summaries with counts 5, 7, 9 newest first
(strictly decreasing in calendar time) yield exactly the
`participation_growth` insight. -/
theorem C10_participation_slope_orientation_witness :
    (check_participation_trends "C"
      [⟨"C", 0, 6, 1, 0, 0, false, "Low", 5⟩,
       ⟨"C", 0, 6, 1, 0, 0, false, "Low", 7⟩,
       ⟨"C", 0, 6, 1, 0, 0, false, "Low", 9⟩]).map (fun i => i.insight_type) =
      ["participation_growth"] :=
  (C10_participation_slope_orientation "C"
    [⟨"C", 0, 6, 1, 0, 0, false, "Low", 5⟩,
     ⟨"C", 0, 6, 1, 0, 0, false, "Low", 7⟩,
     ⟨"C", 0, 6, 1, 0, 0, false, "Low", 9⟩] (by decide)).1
    (by rw [List.chain'_cons, List.chain'_cons]
        exact ⟨by decide, by decide, List.chain'_singleton _⟩)

end Pulse
